import Mathlib

/-!
# basic_opengl_main.c : a shallow embedding

The program is one C file: two small helpers (`frameBufferSizeCallback`,
`processInput`) and `main`.  Everything `main` does is a call into GLFW, GLAD or
OpenGL, so the embedding threads an explicit `World` through the code: the state of
the single window, the GL viewport rectangle, and the log of library calls issued
so far (`trace`).  Whatever the libraries decide (does window creation succeed,
which object names are handed out, which events arrive at a poll) is read from an
`Env`, over which every theorem quantifies.

`float` literals are kept as the decimal literals of the source, read in `ℚ`
(`0.5`, `0.2`, ...); rounding to binary32 is not modelled.
-/

namespace BasicOpenGL

/-! ## Header constants used by the source (values as in `glfw3.h` / `glad.h`) -/

def GLFW_CONTEXT_VERSION_MAJOR : Int := 0x00022002
def GLFW_CONTEXT_VERSION_MINOR : Int := 0x00022003
def GLFW_OPENGL_PROFILE : Int := 0x00022008
def GLFW_OPENGL_CORE_PROFILE : Int := 0x00032001
def GLFW_KEY_ESCAPE : Int := 256
def GLFW_PRESS : Int := 1
def GL_VERTEX_SHADER : Int := 0x8B31
def GL_FRAGMENT_SHADER : Int := 0x8B30
def GL_COMPILE_STATUS : Int := 0x8B81
def GL_LINK_STATUS : Int := 0x8B82
def GL_ARRAY_BUFFER : Int := 0x8892
def GL_ELEMENT_ARRAY_BUFFER : Int := 0x8893
def GL_STATIC_DRAW : Int := 0x88E4
def GL_FLOAT : Int := 0x1406
def GL_UNSIGNED_INT : Int := 0x1405
def GL_FALSE : Int := 0
def GL_FRONT_AND_BACK : Int := 0x0408
def GL_LINE : Int := 0x1B01
def GL_COLOR_BUFFER_BIT : Int := 0x00004000
def GL_TRIANGLES : Int := 0x0004

/-- Size in bytes of a C `float` (binary32). -/
def sizeof_float : Nat := 4

/-- Size in bytes of a `uint32_t`. -/
def sizeof_uint32_t : Nat := 4

/-! ## Static globals -/

/-- The text of `g_VertexShaderSource`, up to its terminating NUL. -/
def g_VertexShaderSource : String :=
  "#version 330 core\nlayout (location = 0) in vec3 aPos;\nvoid main()\n\x7b\n   gl_Position = vec4(aPos.x, aPos.y, aPos.z, 1.0);\n\x7d"

/-- The text of `g_FragmentShaderSource`. -/
def g_FragmentShaderSource : String :=
  "#version 330 core\nout vec4 FragColor;\nvoid main()\n\x7b\n   FragColor = vec4(1.0f, 0.5f, 0.2f, 1.0f);\n\x7d\n"

/-! ## Data model -/

/-- The state of the one GLFW window the program owns: the last reported state of
every key (indexed by key code) and the close flag. -/
structure Window where
  keys : Int → Int
  shouldClose : Bool

/-- The GL viewport rectangle. -/
structure Viewport where
  x : Int
  y : Int
  width : Int
  height : Int
deriving DecidableEq, Repr

/-- The payload handed to `glBufferData`. -/
inductive BufferData where
  | floats (data : List ℚ)
  | uints (data : List Nat)
deriving DecidableEq

/-- One library call, with its arguments and, where the program reads it, the value
the library returned (`ret`).  The window argument is left out: there is one window. -/
inductive Call where
  | glfwInit
  | glfwWindowHint (hint value : Int)
  | glfwCreateWindow (width height : Int) (title : String) (created : Bool)
  | printf (text : String)
  | glfwTerminate
  | glfwMakeContextCurrent
  | glfwSetFramebufferSizeCallback
  | gladLoadGLLoader (ret : Int)
  | glCreateShader (kind : Int) (ret : Nat)
  | glShaderSource (shader : Nat) (count : Int) (source : String)
  | glCompileShader (shader : Nat)
  | glGetShaderiv (shader : Nat) (pname : Int) (ret : Int)
  | glGetShaderInfoLog (shader : Nat) (maxLength : Int)
  | glCreateProgram (ret : Nat)
  | glAttachShader (program shader : Nat)
  | glLinkProgram (program : Nat)
  | glGetProgramiv (program : Nat) (pname : Int) (ret : Int)
  | glGetProgramInfoLog (program : Nat) (maxLength : Int)
  | glDeleteShader (shader : Nat)
  | glGenVertexArrays (n : Int) (ret : Nat)
  | glGenBuffers (n : Int) (ret : Nat)
  | glBindVertexArray (array : Nat)
  | glBindBuffer (target : Int) (buffer : Nat)
  | glBufferData (target : Int) (size : Nat) (data : BufferData) (usage : Int)
  | glVertexAttribPointer (index : Nat) (size : Int) (kind : Int) (normalized : Int)
      (stride : Nat) (pointer : Nat)
  | glEnableVertexAttribArray (index : Nat)
  | glPolygonMode (face mode : Int)
  | glfwWindowShouldClose (ret : Bool)
  | glfwGetKey (key : Int) (ret : Int)
  | glfwSetWindowShouldClose (value : Bool)
  | glClearColor (red green blue alpha : ℚ)
  | glClear (mask : Int)
  | glUseProgram (program : Nat)
  | glDrawElements (mode : Int) (count : Int) (kind : Int) (indices : Nat)
  | glfwPollEvents
  | glfwSwapBuffers
  | glDeleteVertexArrays (n : Int) (array : Nat)
  | glDeleteBuffers (n : Int) (buffer : Nat)
  | glDeleteProgram (program : Nat)
  | glViewport (x y width height : Int)
deriving DecidableEq

/-- What the program acts on once a window exists. -/
structure World where
  window : Window
  viewport : Viewport
  trace : List Call

/-- Everything the libraries and the user decide during one run. -/
structure Env where
  /-- Result of `glfwCreateWindow`: `none` is `NULL`. -/
  createWindow : Option Window
  /-- Viewport of the fresh GL context. -/
  viewport : Viewport
  /-- Return value of `gladLoadGLLoader`. -/
  loadGL : Int
  /-- Names returned by the two `glCreateShader` calls and by `glCreateProgram`. -/
  vertexShader : Nat
  fragmentShader : Nat
  shaderProgram : Nat
  /-- Values written to `success` by the three status queries. -/
  vertexStatus : Int
  fragmentStatus : Int
  linkStatus : Int
  /-- Text written to `info_log` by the three log queries. -/
  vertexLog : String
  fragmentLog : String
  linkLog : String
  /-- Names written by `glGenVertexArrays` and the two `glGenBuffers` calls. -/
  vao : Nat
  vbo : Nat
  ebo : Nat
  /-- The `n`-th `glfwPollEvents` of the run: the window state it leaves behind, and
  the framebuffer sizes it reports to the registered resize callback, in order. -/
  events : Nat → Window → Window × List (Int × Int)

/-- Exit status of `main` together with the calls it issued. -/
structure Result where
  exit : Int
  trace : List Call

/-! ## Library primitives -/

/-- Log one call. -/
def call (c : Call) (s : World) : World :=
  { s with trace := s.trace ++ [c] }

/-- `glViewport`: sets the viewport rectangle; with a negative width or height GL
raises `GL_INVALID_VALUE` and leaves the viewport as it was. -/
def glViewport (x y width height : Int) (s : World) : World :=
  let s := call (.glViewport x y width height) s
  if width < 0 ∨ height < 0 then s
  else { s with viewport := ⟨x, y, width, height⟩ }

/-- `glfwGetKey`: reads the last reported state of a key. -/
def glfwGetKey (key : Int) (s : World) : Int × World :=
  (s.window.keys key, call (.glfwGetKey key (s.window.keys key)) s)

/-- `glfwSetWindowShouldClose`: writes the close flag. -/
def glfwSetWindowShouldClose (value : Bool) (s : World) : World :=
  call (.glfwSetWindowShouldClose value)
    { s with window := { s.window with shouldClose := value } }

/-- `glfwWindowShouldClose`: reads the close flag. -/
def glfwWindowShouldClose (s : World) : Bool × World :=
  (s.window.shouldClose, call (.glfwWindowShouldClose s.window.shouldClose) s)

/-! ## The two helpers of the source -/

/-- `frameBufferSizeCallback(window, width, height)`. -/
def frameBufferSizeCallback (_window : Window) (width height : Int) (s : World) : World :=
  glViewport 0 0 width height s

/-- `processInput(window)`. -/
def processInput (s : World) : World :=
  let (k, s) := glfwGetKey GLFW_KEY_ESCAPE s
  if k = GLFW_PRESS then glfwSetWindowShouldClose true s else s

/-! ## `main` -/

/-- The array `vertices` of `main`: 4 vertices, 3 floats each. -/
def vertices : List ℚ :=
  [ 0.5,  0.5, 0.0,
    0.5, -0.5, 0.0,
   -0.5, -0.5, 0.0,
   -0.5,  0.5, 0.0]

/-- The array `indices` of `main`. -/
def indices : List Nat :=
  [0, 1, 3,
   1, 2, 3]

/-- `sizeof(vertices)`. -/
def sizeof_vertices : Nat := vertices.length * sizeof_float

/-- `sizeof(indices)`. -/
def sizeof_indices : Nat := indices.length * sizeof_uint32_t

/-- `glfwPollEvents`: the window takes the state the environment reports, and every
framebuffer-size event is dispatched to the callback `main` registered. -/
def glfwPollEvents (env : Env) (n : Nat) (s : World) : World :=
  let ev := env.events n s.window
  let s := call .glfwPollEvents { s with window := ev.1 }
  ev.2.foldl (fun s wh => frameBufferSizeCallback s.window wh.1 wh.2 s) s

/-- Sections 1 and 2 of `main` up to and including `glfwCreateWindow`. -/
def startupCalls (env : Env) : List Call :=
  [ .glfwInit,
    .glfwWindowHint GLFW_CONTEXT_VERSION_MAJOR 3,
    .glfwWindowHint GLFW_CONTEXT_VERSION_MINOR 3,
    .glfwWindowHint GLFW_OPENGL_PROFILE GLFW_OPENGL_CORE_PROFILE,
    .glfwCreateWindow 800 600 "LearnOpenGL" env.createWindow.isSome ]

/-- Sections 4, 5 and 6 of `main`: build the two shaders and the program. -/
def shaderBuild (env : Env) (s : World) : World :=
  -- 4. vertex shader
  let vertex_shader := env.vertexShader
  let s := call (.glCreateShader GL_VERTEX_SHADER vertex_shader) s
  let s := call (.glShaderSource vertex_shader 1 g_VertexShaderSource) s
  let s := call (.glCompileShader vertex_shader) s
  let success := env.vertexStatus
  let s := call (.glGetShaderiv vertex_shader GL_COMPILE_STATUS success) s
  let s :=
    if success = 0 then
      s |> call (.glGetShaderInfoLog vertex_shader 512)
        |> call (.printf "ERROR::SHADER::VERTEX::COMPILATION_FAILED\n")
        |> call (.printf env.vertexLog)
        |> call (.printf "\n")
    else s
  -- 5. fragment shader
  let fragment_shader := env.fragmentShader
  let s := call (.glCreateShader GL_FRAGMENT_SHADER fragment_shader) s
  let s := call (.glShaderSource fragment_shader 1 g_FragmentShaderSource) s
  let s := call (.glCompileShader fragment_shader) s
  let success := env.fragmentStatus
  let s := call (.glGetShaderiv fragment_shader GL_COMPILE_STATUS success) s
  let s :=
    if success = 0 then
      s |> call (.glGetShaderInfoLog fragment_shader 512)
        |> call (.printf "ERROR::SHADER::FRAGMENT::COMPILATION_FAILED\n")
        |> call (.printf env.fragmentLog)
        |> call (.printf "\n")
    else s
  -- 6. program
  let shader_program := env.shaderProgram
  let s := call (.glCreateProgram shader_program) s
  let s := call (.glAttachShader shader_program vertex_shader) s
  let s := call (.glAttachShader shader_program fragment_shader) s
  let s := call (.glLinkProgram shader_program) s
  let success := env.linkStatus
  let s := call (.glGetProgramiv shader_program GL_LINK_STATUS success) s
  let s :=
    if success = 0 then
      s |> call (.glGetProgramInfoLog shader_program 512)
        |> call (.printf "ERROR::SHADER::PROGRAM::LINKING_FAILED\n")
        |> call (.printf env.linkLog)
        |> call (.printf "\n")
    else s
  let s := call (.glDeleteShader vertex_shader) s
  call (.glDeleteShader fragment_shader) s

/-- Section 7 of `main`: upload the quad. -/
def geometryUpload (env : Env) (s : World) : World :=
  let vao := env.vao
  let vbo := env.vbo
  let ebo := env.ebo
  s |> call (.glGenVertexArrays 1 vao)
    |> call (.glGenBuffers 1 vbo)
    |> call (.glGenBuffers 1 ebo)
    |> call (.glBindVertexArray vao)
    |> call (.glBindBuffer GL_ARRAY_BUFFER vbo)
    |> call (.glBufferData GL_ARRAY_BUFFER sizeof_vertices (.floats vertices) GL_STATIC_DRAW)
    |> call (.glBindBuffer GL_ELEMENT_ARRAY_BUFFER ebo)
    |> call (.glBufferData GL_ELEMENT_ARRAY_BUFFER sizeof_indices (.uints indices) GL_STATIC_DRAW)
    |> call (.glVertexAttribPointer 0 3 GL_FLOAT GL_FALSE (3 * sizeof_float) 0)
    |> call (.glEnableVertexAttribArray 0)
    |> call (.glBindBuffer GL_ARRAY_BUFFER 0)
    |> call (.glBindVertexArray 0)
    |> call (.glPolygonMode GL_FRONT_AND_BACK GL_LINE)

/-- The body of the render loop, for iteration number `n`. -/
def frame (env : Env) (n : Nat) (s : World) : World :=
  s |> processInput
    |> call (.glClearColor 0.2 0.3 0.3 1.0)
    |> call (.glClear GL_COLOR_BUFFER_BIT)
    |> call (.glUseProgram env.shaderProgram)
    |> call (.glBindVertexArray env.vao)
    |> call (.glDrawElements GL_TRIANGLES 6 GL_UNSIGNED_INT 0)
    |> glfwPollEvents env n
    |> call .glfwSwapBuffers

/-- Section 8 of `main`: `while(!glfwWindowShouldClose(window)) { ... }`, run for at
most `fuel` evaluations of the loop condition; `none` when that is not enough.
`n` numbers the iteration about to start. -/
def renderLoop (env : Env) : Nat → Nat → World → Option World
  | 0, _, _ => none
  | fuel + 1, n, s =>
    let (closing, s) := glfwWindowShouldClose s
    if closing then some s else renderLoop env fuel (n + 1) (frame env n s)

/-- Section 9 of `main`. -/
def teardown (env : Env) (s : World) : World :=
  s |> call (.glDeleteVertexArrays 1 env.vao)
    |> call (.glDeleteBuffers 1 env.vbo)
    |> call (.glDeleteBuffers 1 env.ebo)
    |> call (.glDeleteProgram env.shaderProgram)
    |> call .glfwTerminate

/-- Sections 2 and 3 of `main` after a successful `glfwCreateWindow`, up to and
including the call of `gladLoadGLLoader`. -/
def bootstrap (env : Env) (window : Window) : World :=
  let s : World := ⟨window, env.viewport, startupCalls env⟩
  let s := call .glfwMakeContextCurrent s
  let s := call .glfwSetFramebufferSizeCallback s
  call (.gladLoadGLLoader env.loadGL) s

/-- The state in which `main` reaches the render loop: sections 4 to 7 run after a
successful bootstrap. -/
def setup (env : Env) (window : Window) : World :=
  geometryUpload env (shaderBuild env (bootstrap env window))

/-- `main()`, with `fuel` bounding the evaluations of the loop condition. -/
def main (env : Env) (fuel : Nat) : Option Result :=
  match env.createWindow with
  | none =>
    some ⟨-1, startupCalls env ++ [.printf "Failed to create GLFW window.\n", .glfwTerminate]⟩
  | some window =>
    let s := bootstrap env window
    if env.loadGL = 0 then
      some ⟨-1, (call (.printf "Failed to initialize GLAD") s).trace⟩
    else
      let s := shaderBuild env s
      let s := geometryUpload env s
      match renderLoop env fuel 0 s with
      | none => none
      | some s => some ⟨0, (teardown env s).trace⟩

/-! ## Reading a trace -/

/-- The window state and call log in which the `k`-th evaluation of the loop
condition would take place, counted from a state `s` at iteration number `n`,
were the loop not left before. -/
def runFrames (env : Env) : Nat → Nat → World → World
  | 0, _, s => s
  | k + 1, n, s => runFrames env k (n + 1) (frame env n (glfwWindowShouldClose s).2)

/-- The calls one pass through the loop body issues when it starts with the window
in state `w`, as a list. -/
def frameCalls (env : Env) (n : Nat) (w : Window) : List Call :=
  [.glfwGetKey GLFW_KEY_ESCAPE (w.keys GLFW_KEY_ESCAPE)] ++
  (if w.keys GLFW_KEY_ESCAPE = GLFW_PRESS then [.glfwSetWindowShouldClose true] else []) ++
  [ .glClearColor 0.2 0.3 0.3 1.0,
    .glClear GL_COLOR_BUFFER_BIT,
    .glUseProgram env.shaderProgram,
    .glBindVertexArray env.vao,
    .glDrawElements GL_TRIANGLES 6 GL_UNSIGNED_INT 0,
    .glfwPollEvents ] ++
  ((env.events n
      (if w.keys GLFW_KEY_ESCAPE = GLFW_PRESS then { w with shouldClose := true } else w)).2.map
    fun wh => .glViewport 0 0 wh.1 wh.2) ++
  [.glfwSwapBuffers]

/-- The calls that can occur between entering and leaving the render loop. -/
def isLoopCall (env : Env) : Call → Bool
  | .glfwWindowShouldClose _ => true
  | .glfwGetKey key _ => key == GLFW_KEY_ESCAPE
  | .glfwSetWindowShouldClose value => value
  | .glClearColor r g b a => r == 0.2 && g == 0.3 && b == 0.3 && a == 1.0
  | .glClear mask => mask == GL_COLOR_BUFFER_BIT
  | .glUseProgram program => program == env.shaderProgram
  | .glBindVertexArray array => array == env.vao
  | .glDrawElements mode count kind offset =>
      mode == GL_TRIANGLES && count == 6 && kind == GL_UNSIGNED_INT && offset == 0
  | .glfwPollEvents => true
  | .glViewport x y _ _ => x == 0 && y == 0
  | .glfwSwapBuffers => true
  | _ => false

/-- A GPU object name, tagged with the kind of object it names. -/
inductive GLObject where
  | shader (name : Nat)
  | program (name : Nat)
  | vertexArray (name : Nat)
  | buffer (name : Nat)
deriving DecidableEq, Repr

/-- The object a call creates, if it is a creation call. -/
def Call.created : Call → Option GLObject
  | .glCreateShader _ ret => some (.shader ret)
  | .glCreateProgram ret => some (.program ret)
  | .glGenVertexArrays _ ret => some (.vertexArray ret)
  | .glGenBuffers _ ret => some (.buffer ret)
  | _ => none

/-- The object a call deletes, if it is a deletion call. -/
def Call.deleted : Call → Option GLObject
  | .glDeleteShader shader => some (.shader shader)
  | .glDeleteProgram program => some (.program program)
  | .glDeleteVertexArrays _ array => some (.vertexArray array)
  | .glDeleteBuffers _ buffer => some (.buffer buffer)
  | _ => none

/-- One step of the handle ledger: a creation adds its object, a deletion removes
one entry for its object. -/
def track (live : List GLObject) (c : Call) : List GLObject :=
  match c.created with
  | some o => live ++ [o]
  | none =>
    match c.deleted with
    | some o => live.erase o
    | none => live

/-- The objects created and not yet deleted after a trace. -/
def outstanding (t : List Call) : List GLObject :=
  t.foldl track []

/-- The shader a call deletes, if it deletes one. -/
def Call.deletedShader (c : Call) : Option Nat :=
  match c.deleted with
  | some (.shader name) => some name
  | _ => none

/-- Is this the call that shuts GLFW down? -/
def Call.isTerminate : Call → Bool
  | .glfwTerminate => true
  | _ => false

/-- Is this the event poll? -/
def Call.isPollEvents : Call → Bool
  | .glfwPollEvents => true
  | _ => false

/-- Is this the query of the Escape key? -/
def Call.isEscapeCheck : Call → Bool
  | .glfwGetKey key _ => key == GLFW_KEY_ESCAPE
  | _ => false

/-- Is this the clear of the colour buffer? -/
def Call.isClear : Call → Bool
  | .glClear _ => true
  | _ => false

/-- The teardown calls of section 9, as a list. -/
def teardownCalls (env : Env) : List Call :=
  [ .glDeleteVertexArrays 1 env.vao,
    .glDeleteBuffers 1 env.vbo,
    .glDeleteBuffers 1 env.ebo,
    .glDeleteProgram env.shaderProgram,
    .glfwTerminate ]

/-- The calls of sections 4, 5 and 6, as a list. -/
def shaderBuildCalls (env : Env) : List Call :=
  [ .glCreateShader GL_VERTEX_SHADER env.vertexShader,
    .glShaderSource env.vertexShader 1 g_VertexShaderSource,
    .glCompileShader env.vertexShader,
    .glGetShaderiv env.vertexShader GL_COMPILE_STATUS env.vertexStatus ] ++
  (if env.vertexStatus = 0 then
    [ .glGetShaderInfoLog env.vertexShader 512,
      .printf "ERROR::SHADER::VERTEX::COMPILATION_FAILED\n",
      .printf env.vertexLog,
      .printf "\n" ]
   else []) ++
  [ .glCreateShader GL_FRAGMENT_SHADER env.fragmentShader,
    .glShaderSource env.fragmentShader 1 g_FragmentShaderSource,
    .glCompileShader env.fragmentShader,
    .glGetShaderiv env.fragmentShader GL_COMPILE_STATUS env.fragmentStatus ] ++
  (if env.fragmentStatus = 0 then
    [ .glGetShaderInfoLog env.fragmentShader 512,
      .printf "ERROR::SHADER::FRAGMENT::COMPILATION_FAILED\n",
      .printf env.fragmentLog,
      .printf "\n" ]
   else []) ++
  [ .glCreateProgram env.shaderProgram,
    .glAttachShader env.shaderProgram env.vertexShader,
    .glAttachShader env.shaderProgram env.fragmentShader,
    .glLinkProgram env.shaderProgram,
    .glGetProgramiv env.shaderProgram GL_LINK_STATUS env.linkStatus ] ++
  (if env.linkStatus = 0 then
    [ .glGetProgramInfoLog env.shaderProgram 512,
      .printf "ERROR::SHADER::PROGRAM::LINKING_FAILED\n",
      .printf env.linkLog,
      .printf "\n" ]
   else []) ++
  [ .glDeleteShader env.vertexShader,
    .glDeleteShader env.fragmentShader ]

/-- The calls of section 7, as a list. -/
def geometryCalls (env : Env) : List Call :=
  [ .glGenVertexArrays 1 env.vao,
    .glGenBuffers 1 env.vbo,
    .glGenBuffers 1 env.ebo,
    .glBindVertexArray env.vao,
    .glBindBuffer GL_ARRAY_BUFFER env.vbo,
    .glBufferData GL_ARRAY_BUFFER sizeof_vertices (.floats vertices) GL_STATIC_DRAW,
    .glBindBuffer GL_ELEMENT_ARRAY_BUFFER env.ebo,
    .glBufferData GL_ELEMENT_ARRAY_BUFFER sizeof_indices (.uints indices) GL_STATIC_DRAW,
    .glVertexAttribPointer 0 3 GL_FLOAT GL_FALSE (3 * sizeof_float) 0,
    .glEnableVertexAttribArray 0,
    .glBindBuffer GL_ARRAY_BUFFER 0,
    .glBindVertexArray 0,
    .glPolygonMode GL_FRONT_AND_BACK GL_LINE ]

/-- The calls `main` issues before the shader build when the bootstrap succeeds. -/
def bootstrapCalls (env : Env) : List Call :=
  startupCalls env ++
  [ .glfwMakeContextCurrent, .glfwSetFramebufferSizeCallback, .gladLoadGLLoader env.loadGL ]

/-! ## The quad, read as geometry -/

/-- A point of the plane with rational coordinates. -/
abbrev Point := ℚ × ℚ

/-- Number of vertices in `vertices`: the attribute has 3 components per vertex. -/
def vertexCount : Nat := vertices.length / 3

/-- Position `(x, y)` of vertex `i`, as `glVertexAttribPointer(0, 3, GL_FLOAT, ..,
3 * sizeof(float), 0)` lays the array out. -/
def vertexXY (i : Nat) : Point :=
  (vertices.getD (3 * i) 0, vertices.getD (3 * i + 1) 0)

/-- The `z` component of vertex `i`. -/
def vertexZ (i : Nat) : ℚ :=
  vertices.getD (3 * i + 2) 0

/-- Corner `j` (0, 1 or 2) of triangle `k`, as `glDrawElements(GL_TRIANGLES, ..)`
reads the index array. -/
def corner (k j : Nat) : Point :=
  vertexXY (indices.getD (3 * k + j) 0)

/-- The closed triangle with corners `a`, `b`, `c`: all convex combinations. -/
def InTriangle (a b c p : Point) : Prop :=
  ∃ s t u : ℚ, 0 ≤ s ∧ 0 ≤ t ∧ 0 ≤ u ∧ s + t + u = 1 ∧
    p.1 = s * a.1 + t * b.1 + u * c.1 ∧ p.2 = s * a.2 + t * b.2 + u * c.2

/-- The closed segment from `a` to `b`. -/
def OnSegment (a b p : Point) : Prop :=
  ∃ t : ℚ, 0 ≤ t ∧ t ≤ 1 ∧
    p.1 = (1 - t) * a.1 + t * b.1 ∧ p.2 = (1 - t) * a.2 + t * b.2

/-- The closed square `[-0.5, 0.5] x [-0.5, 0.5]`. -/
def InSquare (p : Point) : Prop :=
  -0.5 ≤ p.1 ∧ p.1 ≤ 0.5 ∧ -0.5 ≤ p.2 ∧ p.2 ≤ 0.5

/-- Area of the triangle `a b c` (half the absolute cross product). -/
def triangleArea (a b c : Point) : ℚ :=
  |(b.1 - a.1) * (c.2 - a.2) - (c.1 - a.1) * (b.2 - a.2)| / 2

/-! ## Sample inputs -/

/-- A window with no key down and the close flag clear. -/
def idleWindow : Window := ⟨fun _ => 0, false⟩

/-- A window with only the `A` key (code 65) down and the close flag set. -/
def otherKeyWindow : Window := ⟨fun k => if k = 65 then 1 else 0, true⟩

/-- A window with Escape down and the close flag clear. -/
def escapeWindow : Window := ⟨fun k => if k = GLFW_KEY_ESCAPE then GLFW_PRESS else 0, false⟩

/-- A world around `otherKeyWindow`, with an 800 x 600 viewport. -/
def otherKeyWorld : World := ⟨otherKeyWindow, ⟨0, 0, 800, 600⟩, []⟩

/-- A world around `escapeWindow`, with an 800 x 600 viewport. -/
def escapeWorld : World := ⟨escapeWindow, ⟨0, 0, 800, 600⟩, []⟩

/-- A world around `idleWindow`, with an 800 x 600 viewport. -/
def idleWorld : World := ⟨idleWindow, ⟨0, 0, 800, 600⟩, []⟩

/-- A run in which everything succeeds, the first poll reports a resize to
1024 x 768, and the second poll reports Escape down. -/
def sampleEnv : Env where
  createWindow := some idleWindow
  viewport := ⟨0, 0, 800, 600⟩
  loadGL := 1
  vertexShader := 1
  fragmentShader := 2
  shaderProgram := 3
  vertexStatus := 1
  fragmentStatus := 1
  linkStatus := 1
  vertexLog := ""
  fragmentLog := ""
  linkLog := ""
  vao := 1
  vbo := 1
  ebo := 2
  events := fun n w =>
    if n = 0 then (w, [(1024, 768)])
    else if n = 1 then (escapeWindow, [])
    else (w, [])

/-- A run in which `glfwCreateWindow` returns `NULL`. -/
def noWindowEnv : Env := { sampleEnv with createWindow := none }

/-- A run in which the window is created and `gladLoadGLLoader` returns 0. -/
def noLoaderEnv : Env := { sampleEnv with loadGL := 0 }

/-- A run in which both compilations and the link fail. -/
def brokenShadersEnv : Env :=
  { sampleEnv with
    vertexStatus := 0, fragmentStatus := 0, linkStatus := 0,
    vertexLog := "0:1: error", fragmentLog := "0:1: error",
    linkLog := "link failed" }

/-! ## Basic facts about the primitives -/

@[simp]
theorem call_trace (c : Call) (s : World) : (call c s).trace = s.trace ++ [c] := rfl

@[simp]
theorem call_window (c : Call) (s : World) : (call c s).window = s.window := rfl

@[simp]
theorem call_viewport (c : Call) (s : World) : (call c s).viewport = s.viewport := rfl

theorem processInput_of_press (s : World) (h : s.window.keys GLFW_KEY_ESCAPE = GLFW_PRESS) :
    processInput s =
      { window := { s.window with shouldClose := true }
        viewport := s.viewport
        trace := s.trace ++ [.glfwGetKey GLFW_KEY_ESCAPE GLFW_PRESS,
                             .glfwSetWindowShouldClose true] } := by
  simp [processInput, glfwGetKey, glfwSetWindowShouldClose, call, h]

theorem processInput_of_not_press (s : World)
    (h : s.window.keys GLFW_KEY_ESCAPE ≠ GLFW_PRESS) :
    processInput s =
      { s with trace := s.trace ++
          [.glfwGetKey GLFW_KEY_ESCAPE (s.window.keys GLFW_KEY_ESCAPE)] } := by
  simp [processInput, glfwGetKey, call, h]

theorem processInput_keys (s : World) : (processInput s).window.keys = s.window.keys := by
  by_cases h : s.window.keys GLFW_KEY_ESCAPE = GLFW_PRESS
  · rw [processInput_of_press s h]
  · rw [processInput_of_not_press s h]

theorem processInput_viewport (s : World) : (processInput s).viewport = s.viewport := by
  by_cases h : s.window.keys GLFW_KEY_ESCAPE = GLFW_PRESS
  · rw [processInput_of_press s h]
  · rw [processInput_of_not_press s h]

theorem iterate_processInput_window (s : World)
    (h : s.window.keys GLFW_KEY_ESCAPE = GLFW_PRESS) (n : Nat) :
    (processInput^[n + 1] s).window = { s.window with shouldClose := true } := by
  induction n generalizing s with
  | zero => simp [processInput_of_press s h]
  | succ n ih =>
    rw [Function.iterate_succ_apply]
    have hk : (processInput s).window.keys GLFW_KEY_ESCAPE = GLFW_PRESS := by
      rw [processInput_keys]; exact h
    rw [ih (processInput s) hk, processInput_of_press s h]

theorem glViewport_trace (x y w h : Int) (s : World) :
    (glViewport x y w h s).trace = s.trace ++ [.glViewport x y w h] := by
  unfold glViewport
  split_ifs <;> rfl

theorem glViewport_window (x y w h : Int) (s : World) :
    (glViewport x y w h s).window = s.window := by
  unfold glViewport
  split_ifs <;> rfl

theorem dispatch_trace (l : List (Int × Int)) (s : World) :
    (l.foldl (fun s wh => frameBufferSizeCallback s.window wh.1 wh.2 s) s).trace =
      s.trace ++ l.map fun wh => .glViewport 0 0 wh.1 wh.2 := by
  induction l generalizing s with
  | nil => simp
  | cons a l ih =>
    simp only [List.foldl_cons, List.map_cons]
    rw [ih]
    simp [frameBufferSizeCallback, glViewport_trace]

theorem dispatch_window (l : List (Int × Int)) (s : World) :
    (l.foldl (fun s wh => frameBufferSizeCallback s.window wh.1 wh.2 s) s).window =
      s.window := by
  induction l generalizing s with
  | nil => simp
  | cons a l ih =>
    simp only [List.foldl_cons]
    rw [ih]
    simp [frameBufferSizeCallback, glViewport_window]

theorem glfwPollEvents_trace (env : Env) (n : Nat) (s : World) :
    (glfwPollEvents env n s).trace =
      s.trace ++ .glfwPollEvents ::
        (env.events n s.window).2.map fun wh => .glViewport 0 0 wh.1 wh.2 := by
  simp [glfwPollEvents, dispatch_trace]

theorem glfwPollEvents_window (env : Env) (n : Nat) (s : World) :
    (glfwPollEvents env n s).window = (env.events n s.window).1 := by
  simp [glfwPollEvents, dispatch_window]

theorem processInput_window (s : World) :
    (processInput s).window =
      if s.window.keys GLFW_KEY_ESCAPE = GLFW_PRESS
      then { s.window with shouldClose := true } else s.window := by
  by_cases h : s.window.keys GLFW_KEY_ESCAPE = GLFW_PRESS
  · rw [processInput_of_press s h, if_pos h]
  · rw [processInput_of_not_press s h, if_neg h]

theorem frame_trace (env : Env) (n : Nat) (s : World) :
    (frame env n s).trace = s.trace ++ frameCalls env n s.window := by
  unfold frame frameCalls
  simp only [call_trace, call_window, glfwPollEvents_trace, processInput_window]
  by_cases h : s.window.keys GLFW_KEY_ESCAPE = GLFW_PRESS
  · simp [processInput_of_press s h, h]
  · simp [processInput_of_not_press s h, h]

theorem frame_window (env : Env) (n : Nat) (s : World) :
    (frame env n s).window = (env.events n (processInput s).window).1 := by
  simp [frame, glfwPollEvents_window]

theorem frameCalls_isLoopCall (env : Env) (n : Nat) (w : Window) :
    ∀ c ∈ frameCalls env n w, isLoopCall env c = true := by
  intro c hc
  unfold frameCalls at hc
  simp only [List.mem_append, List.mem_cons, List.mem_singleton, List.mem_map,
    List.not_mem_nil, or_false] at hc
  rcases hc with (((rfl | hc) | hc) | ⟨wh, -, rfl⟩) | rfl
  · simp [isLoopCall]
  · split_ifs at hc
    · simp only [List.mem_singleton] at hc
      subst hc
      rfl
    · simp at hc
  · rcases hc with rfl | rfl | rfl | rfl | rfl | rfl <;> simp [isLoopCall]
  · simp [isLoopCall]
  · rfl

/-! ## The sections of `main` as call lists -/

theorem shaderBuild_trace (env : Env) (s : World) :
    (shaderBuild env s).trace = s.trace ++ shaderBuildCalls env := by
  unfold shaderBuild shaderBuildCalls
  by_cases h1 : env.vertexStatus = 0 <;> by_cases h2 : env.fragmentStatus = 0 <;>
    by_cases h3 : env.linkStatus = 0 <;> simp [h1, h2, h3]

theorem shaderBuild_window (env : Env) (s : World) :
    (shaderBuild env s).window = s.window := by
  unfold shaderBuild
  by_cases h1 : env.vertexStatus = 0 <;> by_cases h2 : env.fragmentStatus = 0 <;>
    by_cases h3 : env.linkStatus = 0 <;> simp [h1, h2, h3]

theorem geometryUpload_trace (env : Env) (s : World) :
    (geometryUpload env s).trace = s.trace ++ geometryCalls env := by
  simp [geometryUpload, geometryCalls]

theorem geometryUpload_window (env : Env) (s : World) :
    (geometryUpload env s).window = s.window := by
  simp [geometryUpload]

theorem bootstrap_trace (env : Env) (window : Window) :
    (bootstrap env window).trace = bootstrapCalls env := by
  simp [bootstrap, bootstrapCalls]

theorem setup_trace (env : Env) (window : Window) :
    (setup env window).trace =
      bootstrapCalls env ++ shaderBuildCalls env ++ geometryCalls env := by
  simp [setup, geometryUpload_trace, shaderBuild_trace, bootstrap_trace]

theorem setup_window (env : Env) (window : Window) :
    (setup env window).window = window := by
  simp [setup, geometryUpload_window, shaderBuild_window, bootstrap]

theorem teardown_trace (env : Env) (s : World) :
    (teardown env s).trace = s.trace ++ teardownCalls env := by
  simp [teardown, teardownCalls]

/-! ## The render loop -/

theorem renderLoop_succ (env : Env) (fuel n : Nat) (s : World) :
    renderLoop env (fuel + 1) n s =
      if s.window.shouldClose = true
      then some (call (.glfwWindowShouldClose true) s)
      else renderLoop env fuel (n + 1)
        (frame env n (call (.glfwWindowShouldClose false) s)) := by
  cases h : s.window.shouldClose <;> simp [renderLoop, glfwWindowShouldClose, h]

theorem renderLoop_trace (env : Env) (fuel n : Nat) (s s' : World)
    (h : renderLoop env fuel n s = some s') :
    ∃ l, s'.trace = s.trace ++ l ++ [.glfwWindowShouldClose true] ∧
      (∀ c ∈ l, isLoopCall env c = true) ∧ s'.window.shouldClose = true := by
  induction fuel generalizing n s with
  | zero => simp [renderLoop] at h
  | succ fuel ih =>
    rw [renderLoop_succ] at h
    split_ifs at h with hc
    · cases h
      exact ⟨[], by simp, by simp, hc⟩
    · obtain ⟨l, hl, hall, hclose⟩ := ih _ _ h
      refine ⟨.glfwWindowShouldClose false :: (frameCalls env n s.window ++ l), ?_, ?_, hclose⟩
      · rw [hl, frame_trace]
        simp
      · intro c hc
        simp only [List.mem_cons, List.mem_append] at hc
        rcases hc with rfl | hc | hc
        · rfl
        · exact frameCalls_isLoopCall env n s.window c hc
        · exact hall c hc

theorem renderLoop_mono (env : Env) (fuel n : Nat) (s s' : World)
    (h : renderLoop env fuel n s = some s') (k : Nat) :
    renderLoop env (fuel + k) n s = some s' := by
  induction fuel generalizing n s with
  | zero => simp [renderLoop] at h
  | succ fuel ih =>
    rw [renderLoop_succ] at h
    rw [show fuel + 1 + k = (fuel + k) + 1 by omega, renderLoop_succ]
    split_ifs at h ⊢ with hc
    · exact h
    · exact ih _ _ h

theorem renderLoop_of_close (env : Env) (k n : Nat) (s : World)
    (h : (runFrames env k n s).window.shouldClose = true) :
    ∃ s', renderLoop env (k + 1) n s = some s' := by
  induction k generalizing n s with
  | zero =>
    rw [renderLoop_succ]
    simp only [runFrames] at h
    simp [h]
  | succ k ih =>
    rw [renderLoop_succ]
    split_ifs with hc
    · exact ⟨_, rfl⟩
    · simp only [runFrames, glfwWindowShouldClose] at h
      have hs : s.window.shouldClose = false := by simpa using hc
      rw [hs] at h
      exact ih _ _ h

theorem main_of_no_window (env : Env) (fuel : Nat) (h : env.createWindow = none) :
    main env fuel = some ⟨-1, startupCalls env ++
      [.printf "Failed to create GLFW window.\n", .glfwTerminate]⟩ := by
  simp [main, h]

theorem main_of_no_loader (env : Env) (fuel : Nat) (window : Window)
    (hw : env.createWindow = some window) (hl : env.loadGL = 0) :
    main env fuel = some ⟨-1, bootstrapCalls env ++ [.printf "Failed to initialize GLAD"]⟩ := by
  simp [main, hw, hl, bootstrap_trace]

theorem main_of_bootstrap (env : Env) (fuel : Nat) (window : Window)
    (hw : env.createWindow = some window) (hl : env.loadGL ≠ 0) :
    main env fuel =
      (renderLoop env fuel 0 (setup env window)).map
        fun s => ⟨0, s.trace ++ teardownCalls env⟩ := by
  simp only [main, hw, hl, if_false, setup]
  cases renderLoop env fuel 0 (geometryUpload env (shaderBuild env (bootstrap env window))) <;>
    simp [teardown_trace]

theorem main_run (env : Env) (fuel : Nat) (window : Window) (r : Result)
    (hw : env.createWindow = some window) (hl : env.loadGL ≠ 0)
    (hr : main env fuel = some r) :
    r.exit = 0 ∧ ∃ l, (∀ c ∈ l, isLoopCall env c = true) ∧
      r.trace = bootstrapCalls env ++ shaderBuildCalls env ++ geometryCalls env ++
        (l ++ [.glfwWindowShouldClose true]) ++ teardownCalls env := by
  rw [main_of_bootstrap env fuel window hw hl] at hr
  cases hloop : renderLoop env fuel 0 (setup env window) with
  | none => simp [hloop] at hr
  | some s =>
    simp only [hloop, Option.map_some', Option.some.injEq] at hr
    subst hr
    obtain ⟨l, hl', hall, -⟩ := renderLoop_trace env fuel 0 _ s hloop
    exact ⟨rfl, l, hall, by simp [hl', setup_trace]⟩

theorem isLoopCall_snoc_close (env : Env) (l : List Call)
    (h : ∀ c ∈ l, isLoopCall env c = true) :
    ∀ c ∈ l ++ [.glfwWindowShouldClose true], isLoopCall env c = true := by
  intro c hc
  rcases List.mem_append.1 hc with hc | hc
  · exact h c hc
  · rw [List.mem_singleton.1 hc]
    rfl

theorem main_run_loop (env : Env) (fuel : Nat) (window : Window) (r : Result)
    (hw : env.createWindow = some window) (hl : env.loadGL ≠ 0)
    (hr : main env fuel = some r) :
    ∃ l, (∀ c ∈ l, isLoopCall env c = true) ∧
      r.trace = bootstrapCalls env ++ shaderBuildCalls env ++ geometryCalls env ++ l ++
        teardownCalls env := by
  obtain ⟨-, l, hall, ht⟩ := main_run env fuel window r hw hl hr
  exact ⟨_, isLoopCall_snoc_close env l hall, ht⟩

/-! ## Loop calls neither create nor delete nor terminate -/

theorem isLoopCall_created (env : Env) (c : Call) (h : isLoopCall env c = true) :
    c.created = none := by
  cases c <;> simp_all [isLoopCall, Call.created]

theorem isLoopCall_deleted (env : Env) (c : Call) (h : isLoopCall env c = true) :
    c.deleted = none := by
  cases c <;> simp_all [isLoopCall, Call.deleted]

theorem isLoopCall_isTerminate (env : Env) (c : Call) (h : isLoopCall env c = true) :
    c.isTerminate = false := by
  cases c <;> simp_all [isLoopCall, Call.isTerminate]

theorem loop_filterMap_created (env : Env) (l : List Call)
    (h : ∀ c ∈ l, isLoopCall env c = true) : l.filterMap Call.created = [] := by
  induction l with
  | nil => rfl
  | cons a l ih =>
    have ha := isLoopCall_created env a (h a (List.mem_cons_self a l))
    rw [List.filterMap_cons_none ha]
    exact ih fun c hc => h c (List.mem_cons_of_mem a hc)

theorem loop_filterMap_deleted (env : Env) (l : List Call)
    (h : ∀ c ∈ l, isLoopCall env c = true) : l.filterMap Call.deleted = [] := by
  induction l with
  | nil => rfl
  | cons a l ih =>
    have ha := isLoopCall_deleted env a (h a (List.mem_cons_self a l))
    rw [List.filterMap_cons_none ha]
    exact ih fun c hc => h c (List.mem_cons_of_mem a hc)

theorem loop_countP_isTerminate (env : Env) (l : List Call)
    (h : ∀ c ∈ l, isLoopCall env c = true) : l.countP Call.isTerminate = 0 := by
  rw [List.countP_eq_zero]
  intro c hc
  simp [isLoopCall_isTerminate env c (h c hc)]

theorem loop_foldl_track (env : Env) (l : List Call)
    (h : ∀ c ∈ l, isLoopCall env c = true) (live : List GLObject) :
    l.foldl track live = live := by
  induction l generalizing live with
  | nil => rfl
  | cons a l ih =>
    have hc := isLoopCall_created env a (h a (List.mem_cons_self a l))
    have hd := isLoopCall_deleted env a (h a (List.mem_cons_self a l))
    have : track live a = live := by simp [track, hc, hd]
    rw [List.foldl_cons, this]
    exact ih (fun c hc => h c (List.mem_cons_of_mem a hc)) live

theorem loop_useProgram (env : Env) (l : List Call)
    (h : ∀ c ∈ l, isLoopCall env c = true) (p : Nat) (hp : .glUseProgram p ∈ l) :
    p = env.shaderProgram := by
  simpa [isLoopCall] using h _ hp

/-! ## What the straight-line sections create and delete -/

theorem bootstrapCalls_created (env : Env) : (bootstrapCalls env).filterMap Call.created = [] := by
  simp [bootstrapCalls, startupCalls, Call.created]

theorem bootstrapCalls_deleted (env : Env) : (bootstrapCalls env).filterMap Call.deleted = [] := by
  simp [bootstrapCalls, startupCalls, Call.deleted]

theorem bootstrapCalls_isTerminate (env : Env) :
    (bootstrapCalls env).countP Call.isTerminate = 0 := by
  simp [bootstrapCalls, startupCalls, Call.isTerminate]

theorem shaderBuildCalls_created (env : Env) :
    (shaderBuildCalls env).filterMap Call.created =
      [.shader env.vertexShader, .shader env.fragmentShader, .program env.shaderProgram] := by
  unfold shaderBuildCalls
  split_ifs <;> simp [Call.created]

theorem shaderBuildCalls_deleted (env : Env) :
    (shaderBuildCalls env).filterMap Call.deleted =
      [.shader env.vertexShader, .shader env.fragmentShader] := by
  unfold shaderBuildCalls
  split_ifs <;> simp [Call.deleted]

theorem shaderBuildCalls_isTerminate (env : Env) :
    (shaderBuildCalls env).countP Call.isTerminate = 0 := by
  unfold shaderBuildCalls
  split_ifs <;> simp [Call.isTerminate]

theorem geometryCalls_created (env : Env) :
    (geometryCalls env).filterMap Call.created =
      [.vertexArray env.vao, .buffer env.vbo, .buffer env.ebo] := by
  simp [geometryCalls, Call.created]

theorem geometryCalls_deleted (env : Env) : (geometryCalls env).filterMap Call.deleted = [] := by
  simp [geometryCalls, Call.deleted]

theorem geometryCalls_isTerminate (env : Env) :
    (geometryCalls env).countP Call.isTerminate = 0 := by
  simp [geometryCalls, Call.isTerminate]

theorem outstanding_before_loop (env : Env) :
    outstanding (bootstrapCalls env ++ shaderBuildCalls env ++ geometryCalls env) =
      [.program env.shaderProgram, .vertexArray env.vao, .buffer env.vbo, .buffer env.ebo] := by
  unfold outstanding bootstrapCalls startupCalls shaderBuildCalls geometryCalls
  split_ifs <;> simp [track, Call.created, Call.deleted]

theorem teardown_clears (env : Env) :
    (teardownCalls env).foldl track
      [.program env.shaderProgram, .vertexArray env.vao, .buffer env.vbo, .buffer env.ebo] =
      [] := by
  simp [teardownCalls, track, Call.created, Call.deleted]

theorem loop_filterMap_deletedShader (env : Env) (l : List Call)
    (h : ∀ c ∈ l, isLoopCall env c = true) : l.filterMap Call.deletedShader = [] := by
  induction l with
  | nil => rfl
  | cons a l ih =>
    have ha : a.deletedShader = none := by
      simp [Call.deletedShader, isLoopCall_deleted env a (h a (List.mem_cons_self a l))]
    rw [List.filterMap_cons_none ha]
    exact ih fun c hc => h c (List.mem_cons_of_mem a hc)

theorem straight_filterMap_deletedShader (env : Env) :
    (bootstrapCalls env).filterMap Call.deletedShader = [] ∧
    (shaderBuildCalls env).filterMap Call.deletedShader =
      [env.vertexShader, env.fragmentShader] ∧
    (geometryCalls env).filterMap Call.deletedShader = [] ∧
    (teardownCalls env).filterMap Call.deletedShader = [] := by
  refine ⟨?_, ?_, ?_, ?_⟩
  · simp [bootstrapCalls, startupCalls, Call.deletedShader, Call.deleted]
  · unfold shaderBuildCalls
    split_ifs <;> simp [Call.deletedShader, Call.deleted]
  · simp [geometryCalls, Call.deletedShader, Call.deleted]
  · simp [teardownCalls, Call.deletedShader, Call.deleted]

theorem straight_useProgram (env : Env) (p : Nat) :
    .glUseProgram p ∉ bootstrapCalls env ∧ .glUseProgram p ∉ shaderBuildCalls env ∧
    .glUseProgram p ∉ geometryCalls env ∧ .glUseProgram p ∉ teardownCalls env := by
  refine ⟨?_, ?_, ?_, ?_⟩
  · simp [bootstrapCalls, startupCalls]
  · unfold shaderBuildCalls
    split_ifs <;> simp
  · simp [geometryCalls]
  · simp [teardownCalls]

theorem frame_usesProgram (env : Env) (n : Nat) (s : World) :
    .glUseProgram env.shaderProgram ∈ (frame env n s).trace := by
  rw [frame_trace]
  simp [frameCalls]

/-! ## The corners of the two triangles -/

theorem corners :
    corner 0 0 = (1 / 2, 1 / 2) ∧ corner 0 1 = (1 / 2, -1 / 2) ∧
    corner 0 2 = (-1 / 2, 1 / 2) ∧ corner 1 0 = (1 / 2, -1 / 2) ∧
    corner 1 1 = (-1 / 2, -1 / 2) ∧ corner 1 2 = (-1 / 2, 1 / 2) := by
  refine ⟨?_, ?_, ?_, ?_, ?_, ?_⟩ <;>
    simp [corner, vertexXY, indices, vertices] <;> norm_num

theorem inTriangle_first (p : Point) :
    InTriangle (corner 0 0) (corner 0 1) (corner 0 2) p ↔
      p.1 ≤ 1 / 2 ∧ p.2 ≤ 1 / 2 ∧ 0 ≤ p.1 + p.2 := by
  obtain ⟨h0, h1, h2, -, -, -⟩ := corners
  rw [h0, h1, h2]
  constructor
  · rintro ⟨s, t, u, hs, ht, hu, hsum, hx, hy⟩
    simp only at hx hy
    refine ⟨?_, ?_, ?_⟩ <;> linarith
  · rintro ⟨hx, hy, hxy⟩
    refine ⟨p.1 + p.2, 1 / 2 - p.2, 1 / 2 - p.1, hxy, by linarith, by linarith, by ring, ?_, ?_⟩ <;>
      simp only <;> ring

theorem inTriangle_second (p : Point) :
    InTriangle (corner 1 0) (corner 1 1) (corner 1 2) p ↔
      -1 / 2 ≤ p.1 ∧ -1 / 2 ≤ p.2 ∧ p.1 + p.2 ≤ 0 := by
  obtain ⟨-, -, -, h0, h1, h2⟩ := corners
  rw [h0, h1, h2]
  constructor
  · rintro ⟨s, t, u, hs, ht, hu, hsum, hx, hy⟩
    simp only at hx hy
    refine ⟨?_, ?_, ?_⟩ <;> linarith
  · rintro ⟨hx, hy, hxy⟩
    refine ⟨p.1 + 1 / 2, -(p.1 + p.2), p.2 + 1 / 2, by linarith, by linarith, by linarith,
      by ring, ?_, ?_⟩ <;> simp only <;> ring

/-! ## The claims -/

/-- C5: when the state of the Escape key is not `GLFW_PRESS`, whatever the other
keys, `processInput` leaves the window as it was: the close flag keeps its value,
set or clear, the key states and the viewport are untouched, and the only thing
added to the call log is the one key query. -/
theorem processInput_without_escape (s : World)
    (h : s.window.keys GLFW_KEY_ESCAPE ≠ GLFW_PRESS) :
    (processInput s).window.shouldClose = s.window.shouldClose ∧
    (processInput s).window = s.window ∧
    (processInput s).viewport = s.viewport ∧
    (processInput s).trace =
      s.trace ++ [.glfwGetKey GLFW_KEY_ESCAPE (s.window.keys GLFW_KEY_ESCAPE)] := by
  rw [processInput_of_not_press s h]
  exact ⟨rfl, rfl, rfl, rfl⟩

/-- Witness for C5: the `A` key is down, Escape is not, and the close flag, which
was set, stays set. -/
theorem processInput_without_escape_witness :
    otherKeyWorld.window.keys GLFW_KEY_ESCAPE ≠ GLFW_PRESS ∧
    otherKeyWorld.window.shouldClose = true ∧
    (processInput otherKeyWorld).window.shouldClose = true ∧
    (processInput otherKeyWorld).window = otherKeyWorld.window :=
  ⟨by decide, rfl,
   (processInput_without_escape otherKeyWorld (by decide)).1,
   (processInput_without_escape otherKeyWorld (by decide)).2.1⟩

/-- C6: when the state of the Escape key is `GLFW_PRESS`, `processInput` yields a
window whose close flag is true and whose keys are unchanged, and repeating it
changes nothing more: applied twice, or any `n ≥ 1` times, it leaves the same
window state as applied once. -/
theorem processInput_with_escape (s : World)
    (h : s.window.keys GLFW_KEY_ESCAPE = GLFW_PRESS) :
    (processInput s).window.shouldClose = true ∧
    (processInput s).window.keys = s.window.keys ∧
    (processInput (processInput s)).window = (processInput s).window ∧
    (processInput (processInput s)).viewport = (processInput s).viewport ∧
    ∀ n, 1 ≤ n →
      (processInput^[n] s).window = (processInput s).window ∧
      (processInput^[n] s).viewport = (processInput s).viewport := by
  have hv : ∀ n, (processInput^[n] s).viewport = s.viewport := by
    intro n
    induction n with
    | zero => rfl
    | succ n ih => rw [Function.iterate_succ_apply', processInput_viewport, ih]
  have h1 : (processInput s).window = { s.window with shouldClose := true } := by
    rw [processInput_of_press s h]
  refine ⟨by rw [h1], processInput_keys s, ?_, ?_, ?_⟩
  · have := iterate_processInput_window s h 1
    rw [h1]
    exact this
  · rw [processInput_viewport]
  · intro n hn
    obtain ⟨m, rfl⟩ : ∃ m, n = m + 1 := ⟨n - 1, by omega⟩
    exact ⟨by rw [iterate_processInput_window s h m, h1],
           by rw [hv, processInput_viewport]⟩

/-- Witness for C6: Escape is down and the flag clear; one call sets the flag, and
five calls leave the window one call leaves. -/
theorem processInput_with_escape_witness :
    escapeWorld.window.keys GLFW_KEY_ESCAPE = GLFW_PRESS ∧
    escapeWorld.window.shouldClose = false ∧
    (processInput escapeWorld).window.shouldClose = true ∧
    (processInput^[5] escapeWorld).window = (processInput escapeWorld).window :=
  ⟨by decide, rfl,
   (processInput_with_escape escapeWorld (by decide)).1,
   ((processInput_with_escape escapeWorld (by decide)).2.2.2.2 5 (by decide)).1⟩

/-- C8: for every window argument and all `w`, `h` with `0 ≤ w, h < 2^31`,
`frameBufferSizeCallback(window, w, h)` leaves the viewport at exactly
`(0, 0, w, h)`; the window state is untouched and the call log gains the one
`glViewport(0, 0, w, h)` call; the outcome is the same for any other window
argument and any other previous viewport. -/
theorem frameBufferSizeCallback_viewport (window : Window) (w h : Int) (s : World)
    (hw : 0 ≤ w) (_hw : w < 2 ^ 31) (hh : 0 ≤ h) (_hh : h < 2 ^ 31) :
    (frameBufferSizeCallback window w h s).viewport = ⟨0, 0, w, h⟩ ∧
    (frameBufferSizeCallback window w h s).window = s.window ∧
    (frameBufferSizeCallback window w h s).trace = s.trace ++ [.glViewport 0 0 w h] ∧
    ∀ (window' : Window) (v : Viewport),
      frameBufferSizeCallback window' w h { s with viewport := v } =
        frameBufferSizeCallback window w h s := by
  have hn : ¬ (w < 0 ∨ h < 0) := by omega
  refine ⟨?_, ?_, ?_, ?_⟩ <;> intros <;>
    simp [frameBufferSizeCallback, glViewport, call, hn]

/-- Witness for C8: a resize to 1024 x 768 of a window whose viewport was
800 x 600. -/
theorem frameBufferSizeCallback_viewport_witness :
    idleWorld.viewport = ⟨0, 0, 800, 600⟩ ∧
    (frameBufferSizeCallback idleWindow 1024 768 idleWorld).viewport = ⟨0, 0, 1024, 768⟩ ∧
    (frameBufferSizeCallback idleWindow 1024 768 idleWorld).trace =
      [.glViewport 0 0 1024 768] :=
  ⟨rfl,
   (frameBufferSizeCallback_viewport idleWindow 1024 768 idleWorld
      (by decide) (by decide) (by decide) (by decide)).1,
   (frameBufferSizeCallback_viewport idleWindow 1024 768 idleWorld
      (by decide) (by decide) (by decide) (by decide)).2.2.1⟩

/-- C1: `main` returns `-1` when window creation fails and `-1` when the GPU
function loader fails, in both cases whatever the fuel; every run that returns
returns `-1` or `0`, `-1` exactly on those two failures and `0` exactly when both
steps succeed, and then the trace ends with the loop condition observed true
followed by the teardown calls; and when both succeed and the close flag is seen
set at the `k`-th evaluation of the loop condition, every fuel above `k` makes
`main` return `0`. -/
theorem main_exit_status (env : Env) (fuel : Nat) :
    (env.createWindow = none → ∃ t, main env fuel = some ⟨-1, t⟩) ∧
    (env.createWindow ≠ none → env.loadGL = 0 → ∃ t, main env fuel = some ⟨-1, t⟩) ∧
    (∀ r, main env fuel = some r →
      (r.exit = -1 ∨ r.exit = 0) ∧
      (r.exit = -1 ↔ env.createWindow = none ∨ env.loadGL = 0) ∧
      (r.exit = 0 ↔ env.createWindow ≠ none ∧ env.loadGL ≠ 0) ∧
      (r.exit = 0 →
        ∃ t, r.trace = t ++ .glfwWindowShouldClose true :: teardownCalls env)) ∧
    (∀ window k, env.createWindow = some window → env.loadGL ≠ 0 →
      (runFrames env k 0 (setup env window)).window.shouldClose = true →
      ∀ fuel', k < fuel' → ∃ t, main env fuel' = some ⟨0, t⟩) := by
  refine ⟨fun h => ⟨_, main_of_no_window env fuel h⟩, ?_, ?_, ?_⟩
  · intro hw hl
    obtain ⟨window, hw⟩ := Option.ne_none_iff_exists'.1 hw
    exact ⟨_, main_of_no_loader env fuel window hw hl⟩
  · intro r hr
    cases hw : env.createWindow with
    | none =>
      rw [main_of_no_window env fuel hw] at hr
      cases hr
      simp
    | some window =>
      by_cases hl : env.loadGL = 0
      · rw [main_of_no_loader env fuel window hw hl] at hr
        cases hr
        simp [hl]
      · obtain ⟨h0, l, -, ht⟩ := main_run env fuel window r hw hl hr
        refine ⟨Or.inr h0, by simp [h0, hl], by simp [h0, hl], fun _ => ?_⟩
        exact ⟨bootstrapCalls env ++ shaderBuildCalls env ++ geometryCalls env ++ l, by
          simp [ht]⟩
  · intro window k hw hl hclose fuel' hk
    obtain ⟨s', hs'⟩ := renderLoop_of_close env k 0 _ hclose
    have hmono := renderLoop_mono env (k + 1) 0 _ s' hs' (fuel' - (k + 1))
    rw [show k + 1 + (fuel' - (k + 1)) = fuel' by omega] at hmono
    exact ⟨_, by rw [main_of_bootstrap env fuel' window hw hl, hmono]; rfl⟩

/-- Witness for C1: one run of each kind. -/
theorem main_exit_status_witness :
    (∃ t, main noWindowEnv 0 = some ⟨-1, t⟩) ∧
    (∃ t, main noLoaderEnv 0 = some ⟨-1, t⟩) ∧
    (∃ t, main sampleEnv 4 = some ⟨0, t⟩) :=
  ⟨(main_exit_status noWindowEnv 0).1 rfl,
   (main_exit_status noLoaderEnv 0).2.1 (by simp [noLoaderEnv, sampleEnv]) rfl,
   (main_exit_status sampleEnv 0).2.2.2 idleWindow 3 rfl (by decide) rfl 4 (by decide)⟩

/-- C2 (evaluation at the failing input): with the window created and
`gladLoadGLLoader` returning 0, `main` returns `-1` after the calls listed, none of
which is `glfwTerminate`; on the sibling path, where `glfwCreateWindow` returns
`NULL`, `glfwTerminate` is called exactly once, as the last call; neither path
deletes a GPU object. -/
theorem main_loader_failure_trace (fuel : Nat) :
    main noLoaderEnv fuel = some ⟨-1,
      [ .glfwInit,
        .glfwWindowHint GLFW_CONTEXT_VERSION_MAJOR 3,
        .glfwWindowHint GLFW_CONTEXT_VERSION_MINOR 3,
        .glfwWindowHint GLFW_OPENGL_PROFILE GLFW_OPENGL_CORE_PROFILE,
        .glfwCreateWindow 800 600 "LearnOpenGL" true,
        .glfwMakeContextCurrent,
        .glfwSetFramebufferSizeCallback,
        .gladLoadGLLoader 0,
        .printf "Failed to initialize GLAD" ]⟩ ∧
    (∀ r, main noLoaderEnv fuel = some r →
      r.trace.countP Call.isTerminate = 0 ∧ r.trace.filterMap Call.deleted = []) ∧
    (∀ r, main noWindowEnv fuel = some r →
      r.exit = -1 ∧ r.trace.countP Call.isTerminate = 1 ∧
      r.trace.getLast? = some .glfwTerminate ∧ r.trace.filterMap Call.deleted = []) := by
  have h1 := main_of_no_loader noLoaderEnv fuel idleWindow rfl rfl
  have h2 := main_of_no_window noWindowEnv fuel rfl
  refine ⟨h1, ?_, ?_⟩
  · intro r hr
    rw [h1] at hr
    cases hr
    simp [bootstrapCalls, startupCalls, Call.isTerminate, Call.deleted]
  · intro r hr
    rw [h2] at hr
    cases hr
    simp [startupCalls, Call.isTerminate, Call.deleted]

/-- C3: once the bootstrap has succeeded, whatever the three status results,
`main` has no exit before the render loop: it runs the loop from the state `setup`
and, if the loop ends, returns 0 after teardown.  The calls up to the loop end
with: attach vertex shader, attach fragment shader, link, query the link status,
the link diagnostics if the status is 0, delete the vertex shader, delete the
fragment shader, and the geometry upload; nothing is deleted before the link.  In
a completed run these two are the only shader deletions, and every `glUseProgram`
names the program that was created and linked; every loop iteration issues one. -/
theorem shader_failures_not_fatal (env : Env) (window : Window) (fuel : Nat)
    (hw : env.createWindow = some window) (hl : env.loadGL ≠ 0) :
    main env fuel =
      (renderLoop env fuel 0 (setup env window)).map
        (fun s => ⟨0, s.trace ++ teardownCalls env⟩) ∧
    (∃ pre, pre.filterMap Call.deleted = [] ∧
      .glCreateProgram env.shaderProgram ∈ pre ∧
      (setup env window).trace = pre ++
        [ .glAttachShader env.shaderProgram env.vertexShader,
          .glAttachShader env.shaderProgram env.fragmentShader,
          .glLinkProgram env.shaderProgram,
          .glGetProgramiv env.shaderProgram GL_LINK_STATUS env.linkStatus ] ++
        (if env.linkStatus = 0 then
          [ .glGetProgramInfoLog env.shaderProgram 512,
            .printf "ERROR::SHADER::PROGRAM::LINKING_FAILED\n",
            .printf env.linkLog,
            .printf "\n" ]
         else []) ++
        [ .glDeleteShader env.vertexShader,
          .glDeleteShader env.fragmentShader ] ++
        geometryCalls env) ∧
    (∀ r, main env fuel = some r →
      r.exit = 0 ∧
      r.trace.filterMap Call.deletedShader = [env.vertexShader, env.fragmentShader] ∧
      ∀ p, .glUseProgram p ∈ r.trace → p = env.shaderProgram) ∧
    (∀ n s, .glUseProgram env.shaderProgram ∈ (frame env n s).trace) := by
  refine ⟨main_of_bootstrap env fuel window hw hl, ?_, ?_, frame_usesProgram env⟩
  · refine ⟨bootstrapCalls env ++
      ([ .glCreateShader GL_VERTEX_SHADER env.vertexShader,
         .glShaderSource env.vertexShader 1 g_VertexShaderSource,
         .glCompileShader env.vertexShader,
         .glGetShaderiv env.vertexShader GL_COMPILE_STATUS env.vertexStatus ] ++
       (if env.vertexStatus = 0 then
         [ .glGetShaderInfoLog env.vertexShader 512,
           .printf "ERROR::SHADER::VERTEX::COMPILATION_FAILED\n",
           .printf env.vertexLog,
           .printf "\n" ]
        else []) ++
       [ .glCreateShader GL_FRAGMENT_SHADER env.fragmentShader,
         .glShaderSource env.fragmentShader 1 g_FragmentShaderSource,
         .glCompileShader env.fragmentShader,
         .glGetShaderiv env.fragmentShader GL_COMPILE_STATUS env.fragmentStatus ] ++
       (if env.fragmentStatus = 0 then
         [ .glGetShaderInfoLog env.fragmentShader 512,
           .printf "ERROR::SHADER::FRAGMENT::COMPILATION_FAILED\n",
           .printf env.fragmentLog,
           .printf "\n" ]
        else []) ++
       [ .glCreateProgram env.shaderProgram ]), ?_, ?_, ?_⟩
    · rw [List.filterMap_append, bootstrapCalls_deleted]
      split_ifs <;> simp [Call.deleted]
    · simp
    · rw [setup_trace]
      unfold shaderBuildCalls
      simp
  · intro r hr
    have h0 := (main_run env fuel window r hw hl hr).1
    obtain ⟨l, hl', ht⟩ := main_run_loop env fuel window r hw hl hr
    obtain ⟨d1, d2, d3, d4⟩ := straight_filterMap_deletedShader env
    have hu := straight_useProgram env
    refine ⟨h0, ?_, ?_⟩
    · rw [ht]
      simp only [List.filterMap_append, d1, d2, d3, d4,
        loop_filterMap_deletedShader env _ hl', List.append_nil, List.nil_append]
    · intro p hp
      rw [ht] at hp
      simp only [List.mem_append] at hp
      rcases hp with (((hp | hp) | hp) | hp) | hp
      · exact absurd hp (hu p).1
      · exact absurd hp (hu p).2.1
      · exact absurd hp (hu p).2.2.1
      · exact loop_useProgram env _ hl' p hp
      · exact absurd hp (hu p).2.2.2

/-- Witness for C3: a run in which both compilations and the link fail still
reaches the loop, returns 0, and deletes shaders 1 and 2 once each. -/
theorem shader_failures_not_fatal_witness :
    brokenShadersEnv.vertexStatus = 0 ∧ brokenShadersEnv.fragmentStatus = 0 ∧
    brokenShadersEnv.linkStatus = 0 ∧
    ∃ r, main brokenShadersEnv 4 = some r ∧ r.exit = 0 ∧
      r.trace.filterMap Call.deletedShader = [1, 2] ∧
      ∀ p, .glUseProgram p ∈ r.trace → p = 3 := by
  obtain ⟨r, hr⟩ : ∃ r, main brokenShadersEnv 4 = some r := ⟨_, rfl⟩
  exact ⟨rfl, rfl, rfl, r, hr,
    (shader_failures_not_fatal brokenShadersEnv idleWindow 4 rfl (by decide)).2.2.1 r hr⟩

/-- C4: in every run of `main` that gets past the bootstrap and leaves the render
loop, the trace ends with: delete the vertex array, delete the vertex buffer,
delete the index buffer, delete the program, `glfwTerminate`.  Before these five
calls the only deletions are the two shader deletions and `glfwTerminate` does not
occur, so each of the four is deleted once and `glfwTerminate` is called once, as
the last call.  Over the whole run six objects are created (2 shaders, 1 program,
1 vertex array, 2 buffers), the same six are deleted, and the ledger of created
and not yet deleted objects ends empty. -/
theorem teardown_releases_everything (env : Env) (window : Window) (fuel : Nat)
    (r : Result) (hw : env.createWindow = some window) (hl : env.loadGL ≠ 0)
    (hr : main env fuel = some r) :
    (∃ pre, r.trace = pre ++
        [ .glDeleteVertexArrays 1 env.vao,
          .glDeleteBuffers 1 env.vbo,
          .glDeleteBuffers 1 env.ebo,
          .glDeleteProgram env.shaderProgram,
          .glfwTerminate ] ∧
      pre.filterMap Call.deleted = [.shader env.vertexShader, .shader env.fragmentShader] ∧
      pre.countP Call.isTerminate = 0) ∧
    r.trace.countP Call.isTerminate = 1 ∧
    r.trace.getLast? = some .glfwTerminate ∧
    r.trace.filterMap Call.created =
      [ .shader env.vertexShader, .shader env.fragmentShader, .program env.shaderProgram,
        .vertexArray env.vao, .buffer env.vbo, .buffer env.ebo ] ∧
    r.trace.filterMap Call.deleted =
      [ .shader env.vertexShader, .shader env.fragmentShader,
        .vertexArray env.vao, .buffer env.vbo, .buffer env.ebo,
        .program env.shaderProgram ] ∧
    outstanding r.trace = [] := by
  obtain ⟨l, hl', ht⟩ := main_run_loop env fuel window r hw hl hr
  have hpre_del :
      (bootstrapCalls env ++ shaderBuildCalls env ++ geometryCalls env ++ l).filterMap
        Call.deleted = [.shader env.vertexShader, .shader env.fragmentShader] := by
    simp only [List.filterMap_append, bootstrapCalls_deleted, shaderBuildCalls_deleted,
      geometryCalls_deleted, loop_filterMap_deleted env _ hl', List.append_nil,
      List.nil_append]
  have hpre_term :
      (bootstrapCalls env ++ shaderBuildCalls env ++ geometryCalls env ++ l).countP
        Call.isTerminate = 0 := by
    simp only [List.countP_append, bootstrapCalls_isTerminate, shaderBuildCalls_isTerminate,
      geometryCalls_isTerminate, loop_countP_isTerminate env _ hl']
  refine ⟨⟨_, ht, hpre_del, hpre_term⟩, ?_, ?_, ?_, ?_, ?_⟩
  · rw [ht, List.countP_append, hpre_term]
    simp [teardownCalls, Call.isTerminate]
  · rw [ht]
    simp [teardownCalls]
  · rw [ht]
    simp only [List.filterMap_append, bootstrapCalls_created, shaderBuildCalls_created,
      geometryCalls_created, loop_filterMap_created env _ hl']
    simp [teardownCalls, Call.created]
  · rw [ht, List.filterMap_append, hpre_del]
    simp [teardownCalls, Call.deleted]
  · rw [ht]
    unfold outstanding
    rw [List.foldl_append, List.foldl_append]
    have h := outstanding_before_loop env
    unfold outstanding at h
    rw [h, loop_foldl_track env _ hl', teardown_clears]

/-- Witness for C4: the sample run (a resize at the first poll, Escape at the
second) leaves the loop at the fourth test of its condition and ends with an
empty ledger. -/
theorem teardown_releases_everything_witness :
    ∃ r, main sampleEnv 4 = some r ∧
      r.trace.countP Call.isTerminate = 1 ∧
      r.trace.getLast? = some .glfwTerminate ∧
      r.trace.filterMap Call.deleted =
        [.shader 1, .shader 2, .vertexArray 1, .buffer 1, .buffer 2, .program 3] ∧
      outstanding r.trace = [] := by
  obtain ⟨r, hr⟩ : ∃ r, main sampleEnv 4 = some r := ⟨_, rfl⟩
  have h := teardown_releases_everything sampleEnv idleWindow 4 r rfl (by decide) hr
  exact ⟨r, hr, h.2.1, h.2.2.1, h.2.2.2.2.1, h.2.2.2.2.2⟩

/-- C9 as stated fails.  In the first iteration of the sample run the calls are the
nine listed: the Escape check is first (index 0), the clear is at index 2 and the
event poll at index 6, after the draw call; so the poll precedes neither the
Escape check nor the clear. -/
theorem poll_does_not_come_first :
    (frame sampleEnv 0 idleWorld).trace =
      [ .glfwGetKey GLFW_KEY_ESCAPE 0,
        .glClearColor 0.2 0.3 0.3 1.0,
        .glClear GL_COLOR_BUFFER_BIT,
        .glUseProgram 3,
        .glBindVertexArray 1,
        .glDrawElements GL_TRIANGLES 6 GL_UNSIGNED_INT 0,
        .glfwPollEvents,
        .glViewport 0 0 1024 768,
        .glfwSwapBuffers ] ∧
    ¬ ((frame sampleEnv 0 idleWorld).trace.findIdx Call.isPollEvents <
        (frame sampleEnv 0 idleWorld).trace.findIdx Call.isEscapeCheck) ∧
    ¬ ((frame sampleEnv 0 idleWorld).trace.findIdx Call.isPollEvents <
        (frame sampleEnv 0 idleWorld).trace.findIdx Call.isClear) := by
  refine ⟨rfl, ?_, ?_⟩ <;> decide

/-- C9, amended: every iteration of the render loop is one pass through `frame`,
and `frame` issues, in this order: the Escape check (followed by the setting of
the close flag when Escape is down), `glClearColor(0.2, 0.3, 0.3, 1.0)`, the clear
of the colour buffer, the binding of the shader program, the binding of the
vertex array, one `glDrawElements(GL_TRIANGLES, 6, GL_UNSIGNED_INT, 0)`, the event
poll (with the viewport updates it dispatches), the buffer swap.  The window state
after the iteration is the one the poll reports. -/
theorem frame_call_order (env : Env) (n : Nat) (s : World) :
    (frame env n s).trace = s.trace ++
      ([.glfwGetKey GLFW_KEY_ESCAPE (s.window.keys GLFW_KEY_ESCAPE)] ++
       (if s.window.keys GLFW_KEY_ESCAPE = GLFW_PRESS
        then [.glfwSetWindowShouldClose true] else []) ++
       [ .glClearColor 0.2 0.3 0.3 1.0,
         .glClear GL_COLOR_BUFFER_BIT,
         .glUseProgram env.shaderProgram,
         .glBindVertexArray env.vao,
         .glDrawElements GL_TRIANGLES 6 GL_UNSIGNED_INT 0,
         .glfwPollEvents ] ++
       ((env.events n (processInput s).window).2.map fun wh => .glViewport 0 0 wh.1 wh.2) ++
       [.glfwSwapBuffers]) ∧
    (frame env n s).window = (env.events n (processInput s).window).1 ∧
    (∀ fuel, renderLoop env (fuel + 1) n s =
      if s.window.shouldClose = true
      then some (call (.glfwWindowShouldClose true) s)
      else renderLoop env fuel (n + 1)
        (frame env n (call (.glfwWindowShouldClose false) s))) := by
  refine ⟨?_, frame_window env n s, fun fuel => renderLoop_succ env fuel n s⟩
  rw [frame_trace, processInput_window]
  rfl

/-- C10: the static geometry is self-consistent.  There are 12 floats, hence 4
vertices, and 6 indices, each below 4; the upload sizes are 48 and 24 bytes and
are the sizes passed to `glBufferData`; the attribute stride is 12 bytes and 4
strides make up the vertex buffer; the draw call of every iteration asks for 6
indices, the length of the index array, from offset 0; so the index reads end
inside the index buffer and the 12 bytes read for every index lie inside the
vertex buffer. -/
theorem geometry_consistent (env : Env) (n : Nat) (s : World) :
    vertices.length = 12 ∧ vertexCount = 4 ∧ indices.length = 6 ∧
    (∀ i ∈ indices, i < vertexCount) ∧
    sizeof_vertices = 48 ∧ sizeof_indices = 24 ∧
    3 * sizeof_float = 12 ∧ 3 * sizeof_float * vertexCount = sizeof_vertices ∧
    .glBufferData GL_ARRAY_BUFFER 48 (.floats vertices) GL_STATIC_DRAW ∈
      (geometryUpload env s).trace ∧
    .glBufferData GL_ELEMENT_ARRAY_BUFFER 24 (.uints indices) GL_STATIC_DRAW ∈
      (geometryUpload env s).trace ∧
    .glVertexAttribPointer 0 3 GL_FLOAT GL_FALSE 12 0 ∈ (geometryUpload env s).trace ∧
    .glDrawElements GL_TRIANGLES (indices.length : Int) GL_UNSIGNED_INT 0 ∈
      (frame env n s).trace ∧
    0 + indices.length * sizeof_uint32_t ≤ sizeof_indices ∧
    (∀ i ∈ indices, i * (3 * sizeof_float) + 3 * sizeof_float ≤ sizeof_vertices) := by
  refine ⟨rfl, rfl, rfl, by decide, rfl, rfl, rfl, rfl, ?_, ?_, ?_, ?_, by decide, by decide⟩
  · rw [geometryUpload_trace]
    simp [geometryCalls, sizeof_vertices, vertices, sizeof_float]
  · rw [geometryUpload_trace]
    simp [geometryCalls, sizeof_indices, indices, sizeof_uint32_t]
  · rw [geometryUpload_trace]
    simp [geometryCalls, sizeof_float]
  · rw [frame_trace]
    simp [frameCalls, indices]

/-- C7: read over the rationals, the index array cuts the vertex array into the
triangles `(v0, v1, v3)` and `(v1, v2, v3)` with `v0 = (0.5, 0.5)`,
`v1 = (0.5, -0.5)`, `v2 = (-0.5, -0.5)`, `v3 = (-0.5, 0.5)`, all with `z = 0`.  A
point lies in one of the two closed triangles exactly when it lies in the closed
square `[-0.5, 0.5] x [-0.5, 0.5]`; a point in both lies on the segment from `v1`
to `v3`; each triangle has area `1/2`, so neither is degenerate and the areas add
up to 1, the area of the square. -/
theorem quad_triangles_tile_square :
    (corner 0 0 = vertexXY 0 ∧ corner 0 1 = vertexXY 1 ∧ corner 0 2 = vertexXY 3 ∧
     corner 1 0 = vertexXY 1 ∧ corner 1 1 = vertexXY 2 ∧ corner 1 2 = vertexXY 3) ∧
    (vertexXY 0 = (0.5, 0.5) ∧ vertexXY 1 = (0.5, -0.5) ∧
     vertexXY 2 = (-0.5, -0.5) ∧ vertexXY 3 = (-0.5, 0.5)) ∧
    (∀ i, i < vertexCount → vertexZ i = 0) ∧
    (∀ p : Point,
      InTriangle (corner 0 0) (corner 0 1) (corner 0 2) p ∨
      InTriangle (corner 1 0) (corner 1 1) (corner 1 2) p ↔ InSquare p) ∧
    (∀ p : Point,
      InTriangle (corner 0 0) (corner 0 1) (corner 0 2) p →
      InTriangle (corner 1 0) (corner 1 1) (corner 1 2) p →
      OnSegment (vertexXY 1) (vertexXY 3) p) ∧
    triangleArea (corner 0 0) (corner 0 1) (corner 0 2) = 1 / 2 ∧
    triangleArea (corner 1 0) (corner 1 1) (corner 1 2) = 1 / 2 ∧
    triangleArea (corner 0 0) (corner 0 1) (corner 0 2) ≠ 0 ∧
    triangleArea (corner 1 0) (corner 1 1) (corner 1 2) ≠ 0 ∧
    triangleArea (corner 0 0) (corner 0 1) (corner 0 2) +
      triangleArea (corner 1 0) (corner 1 1) (corner 1 2) = 1 := by
  have hv1 : vertexXY 1 = (1 / 2, -1 / 2) := corners.2.1
  have hv3 : vertexXY 3 = (-1 / 2, 1 / 2) := corners.2.2.1
  have ha0 : triangleArea (corner 0 0) (corner 0 1) (corner 0 2) = 1 / 2 := by
    obtain ⟨h0, h1, h2, -, -, -⟩ := corners
    rw [h0, h1, h2]
    simp only [triangleArea]
    norm_num [abs_of_nonneg]
  have ha1 : triangleArea (corner 1 0) (corner 1 1) (corner 1 2) = 1 / 2 := by
    obtain ⟨-, -, -, h0, h1, h2⟩ := corners
    rw [h0, h1, h2]
    simp only [triangleArea]
    norm_num [abs_of_nonneg]
  refine ⟨⟨rfl, rfl, rfl, rfl, rfl, rfl⟩, ?_, ?_, ?_, ?_, ha0, ha1, ?_, ?_, ?_⟩
  · refine ⟨?_, ?_, ?_, ?_⟩ <;> simp [vertexXY, vertices]
  · intro i hi
    have hi4 : i < 4 := hi
    interval_cases i <;> simp [vertexZ, vertices] <;> norm_num
  · intro p
    rw [inTriangle_first, inTriangle_second]
    unfold InSquare
    constructor
    · rintro (⟨hx, hy, hxy⟩ | ⟨hx, hy, hxy⟩) <;>
        refine ⟨?_, ?_, ?_, ?_⟩ <;> norm_num <;> linarith
    · rintro ⟨h1, h2, h3, h4⟩
      norm_num at h1 h2 h3 h4
      rcases le_total 0 (p.1 + p.2) with h | h
      · exact Or.inl ⟨h2, h4, h⟩
      · exact Or.inr ⟨by linarith, by linarith, h⟩
  · intro p hp hq
    rw [inTriangle_first] at hp
    rw [inTriangle_second] at hq
    rw [hv1, hv3]
    obtain ⟨hx, hy, hxy⟩ := hp
    obtain ⟨hx', hy', hxy'⟩ := hq
    have h0 : p.1 + p.2 = 0 := le_antisymm hxy' hxy
    refine ⟨1 / 2 - p.1, by linarith, by linarith, ?_, ?_⟩ <;> simp only <;> linarith
  · rw [ha0]; norm_num
  · rw [ha1]; norm_num
  · rw [ha0, ha1]; norm_num

/-- Witness for C7: the centre of the quad lies in both triangles, hence on the
diagonal from `v1` to `v3`. -/
theorem quad_triangles_tile_square_witness :
    InTriangle (corner 0 0) (corner 0 1) (corner 0 2) (0, 0) ∧
    InTriangle (corner 1 0) (corner 1 1) (corner 1 2) (0, 0) ∧
    OnSegment (vertexXY 1) (vertexXY 3) (0, 0) := by
  have h0 : InTriangle (corner 0 0) (corner 0 1) (corner 0 2) (0, 0) :=
    (inTriangle_first (0, 0)).2 (by norm_num)
  have h1 : InTriangle (corner 1 0) (corner 1 1) (corner 1 2) (0, 0) :=
    (inTriangle_second (0, 0)).2 (by norm_num)
  exact ⟨h0, h1, quad_triangles_tile_square.2.2.2.2.1 (0, 0) h0 h1⟩

end BasicOpenGL
